import Mathlib

/-!
Verification of the SortNet AI image sorter (`ai_image_sorter.py`).

The program classifies images by sending each one to a remote model and
moving it into a folder named by the model's reply.  We embed the
filesystem-relevant state as an explicit structure `Fs` (the listings of
the input folder and of the output root), the fallible OS primitives
(`os.makedirs`, `shutil.move`) as `Except`-returning functions driven by a
fault-injection `World`, and the Python functions `create_new_folder`,
`move_image_to_folder`, `process_model_response`, `send_to_openrouter`
and the per-image orchestration of `main` as state-passing functions.
Python string operations (`split(":", 1)`, `strip`, `startswith`,
`":" in s`) are embedded as executable functions over `List Char`.
-/

namespace SortNet

/-- Embedding of Python `s.split(sep, 1)` at the character level: split a
character list at the first occurrence of `sep`, if any. -/
def splitFirst (sep : Char) : List Char → Option (List Char × List Char)
  | [] => none
  | c :: cs =>
    if c = sep then some ([], cs)
    else
      match splitFirst sep cs with
      | none => none
      | some (l, r) => some (c :: l, r)

/-- Embedding of Python `response.split(":", 1)`: one part when there is no
colon, exactly two parts (left of the first colon, everything after it)
otherwise. -/
def pySplitOnce (s : String) : List String :=
  match splitFirst ':' s.toList with
  | none => [s]
  | some (l, r) => [String.mk l, String.mk r]

/-- Embedding of Python `":" in response`. -/
def hasColon (s : String) : Bool :=
  s.toList.contains ':'

/-- Character-list engine for Python `s.startswith(p)`. -/
def listStarts : List Char → List Char → Bool
  | [], _ => true
  | _ :: _, [] => false
  | a :: as, b :: bs => a == b && listStarts as bs

/-- Embedding of Python `s.startswith(p)`. -/
def pyStartsWith (p s : String) : Bool :=
  listStarts p.toList s.toList

/-- Helper for `String.pyStrip`: drop leading whitespace characters. -/
def dropWs : List Char → List Char
  | [] => []
  | c :: cs => if c.isWhitespace then dropWs cs else c :: cs

end SortNet

/-- Embedding of Python `s.strip()`: remove leading and trailing
whitespace.  Defined by structural recursion over the character list so
that concrete instances evaluate inside the kernel. -/
def String.pyStrip (s : String) : String :=
  String.mk ((SortNet.dropWs ((SortNet.dropWs s.toList).reverse)).reverse)

namespace SortNet

/-- The filesystem state the program manipulates: the flat listing of the
input folder `in/`, the subdirectory names of the output root `sorted/`,
and the files below the output root as (folder, filename) pairs.
Directory listings are duplicate-free in a real filesystem. -/
structure Fs where
  inputFiles : List String
  outputDirs : List String
  outputFiles : List (String × String)
deriving Repr, DecidableEq

/-- Fault injection for the OS primitives: whether `os.makedirs` and
`shutil.move` succeed or raise. -/
structure World where
  mkdirOk : Bool
  moveOk : Bool
deriving Repr, DecidableEq

/-- Effect of a successful `os.makedirs(..., exist_ok=True)` under the
output root: the directory is added if absent, and an existing directory
is left as is (no error). -/
def addDir (fs : Fs) (folder : String) : Fs :=
  if folder ∈ fs.outputDirs then fs
  else { fs with outputDirs := fs.outputDirs ++ [folder] }

/-- `os.makedirs(os.path.join(OUTPUT_FOLDER, folder), exist_ok=True)`:
raises (modelled as `.error`) when the world makes mkdir fail. -/
def osMakedirs (w : World) (folder : String) (fs : Fs) : Except Unit Fs :=
  if w.mkdirOk then .ok (addDir fs folder) else .error ()

/-- `shutil.move(in/image, sorted/folder/image)`: removes the file from the
input listing and places it under the destination folder (replacing any
file of the same name there), or raises when the world makes it fail. -/
def shutilMove (w : World) (image folder : String) (fs : Fs) : Except Unit Fs :=
  if w.moveOk then
    .ok { fs with
      inputFiles := fs.inputFiles.filter (fun f => f != image),
      outputFiles :=
        fs.outputFiles.filter (fun e => e != (folder, image)) ++ [(folder, image)] }
  else .error ()

/-- `create_new_folder` (lines 115-124): `os.makedirs` under the output
root inside try/except; any exception is caught and surfaced as `False`. -/
def create_new_folder (w : World) (folder_name : String) (fs : Fs) : Bool × Fs :=
  match osMakedirs w folder_name fs with
  | .ok fs1 => (true, fs1)
  | .error _ => (false, fs)

/-- `move_image_to_folder` (lines 126-149): fail if the source is missing;
create the destination folder if absent; move; every exception is caught
and surfaced as `False`, keeping whatever state change already happened. -/
def move_image_to_folder (w : World) (image_name folder_name : String) (fs : Fs) :
    Bool × Fs :=
  if image_name ∈ fs.inputFiles then
    if folder_name ∈ fs.outputDirs then
      match shutilMove w image_name folder_name fs with
      | .ok fs2 => (true, fs2)
      | .error _ => (false, fs)
    else
      match osMakedirs w folder_name fs with
      | .ok fs1 =>
        match shutilMove w image_name folder_name fs1 with
        | .ok fs2 => (true, fs2)
        | .error _ => (false, fs1)
      | .error _ => (false, fs)
  else (false, fs)

/-- `process_model_response` (lines 151-187): the Response Resolver.
`None` and the empty string are falsy; a `create_folder:` reply creates a
folder; a reply with a colon is split on the first colon and the image is
moved using the right part (whether or not the left part echoes the image
name); a reply with no colon is used whole as the folder name. -/
def process_model_response (w : World) (image_name : String) (response : Option String)
    (fs : Fs) : Bool × Fs :=
  match response with
  | none => (false, fs)
  | some r =>
    if r = "" then (false, fs)
    else if pyStartsWith "create_folder:" r then
      let folder_name := ((pySplitOnce r).getD 1 "").pyStrip
      let res := create_new_folder w folder_name fs
      if res.1 then (true, res.2) else (false, res.2)
    else if hasColon r then
      let parts := pySplitOnce r
      if parts.length = 2 ∧ ((parts.getD 0 "").pyStrip = image_name) then
        move_image_to_folder w image_name ((parts.getD 1 "").pyStrip) fs
      else
        let folder_name := if parts.length = 2 then (parts.getD 1 "").pyStrip else r.pyStrip
        move_image_to_folder w image_name folder_name fs
    else
      move_image_to_folder w image_name r.pyStrip fs

/-- `get_available_folders` (lines 41-47): the subdirectories of the
output root. -/
def get_available_folders (fs : Fs) : List String :=
  fs.outputDirs

/-- The `folder_list` string interpolated into the prompt (line 64):
newline-joined folder names, or the literal default when none exist. -/
def folder_list (fs : Fs) : String :=
  if get_available_folders fs = [] then "cats\ndogs"
  else String.intercalate "\n" (get_available_folders fs)

/-- The prompt built by `send_to_openrouter` (lines 65-78), with the
folder list of the current output state embedded. -/
def prompt (fs : Fs) : String :=
  "# Main\nBelow are images you will Sort and put into its respective folders, do not output anything else besides the image name and its output. Here are the available folders for you to put them into. if there is an image that requires a new folder you may create one by outputting this \"create_folder:NAME\".\nThe syntax for how you should output the images are below:\nimage:folder\nThe available folders are below\n"
  ++ folder_list fs
  ++ "\n\n# Sub sort\nBelow are images you will Sort and put into its respective  subfolders, do not output anything else besides the image name and its output. Here are the available folders for you to put them into. if there is an image that requires a new folder you may create one by outputting this \"create_folder:NAME\".\nThe syntax for how you should output the images are below:\nimage:folder\nThe available images are below, you are limited to only seeing 5 images for quality, do not be confused if u see 5 or less.\n\nPlease classify this image and respond with the appropriate folder or create_folder command."

/-- Abstract outcome of the single HTTP call in `send_to_openrouter`:
`requests.post` raising, `raise_for_status` raising on a bad status, the
body failing to parse or lacking `choices[0].message.content`, or success
with that content string. -/
inductive ApiOutcome where
  | transportError : ApiOutcome
  | httpErrorStatus : ApiOutcome
  | malformedBody : ApiOutcome
  | success : String → ApiOutcome
deriving Repr, DecidableEq

/-- `send_to_openrouter` (lines 49-113): `None` when the API key is
missing; the prompt is built from the output state at call time; every
exception in the try block is caught and surfaced as `None`; on success
the trimmed content of the first choice is returned. -/
def send_to_openrouter (api_key : Option String) (o : ApiOutcome) (fs : Fs) :
    Option String :=
  match api_key with
  | none => none
  | some _ =>
    let _p := prompt fs
    match o with
    | .success content => some content.pyStrip
    | _ => none

/-- The per-image body of `main`'s loop (lines 213-243): first
classification call, the two-step `create_folder:` protocol with one
bounded re-query, otherwise direct resolution.  Returns the new state and
the number of classifier calls made for this image. -/
def handleImage (w : World) (key image_name : String) (o1 o2 : ApiOutcome)
    (fs : Fs) : Fs × Nat :=
  match send_to_openrouter (some key) o1 fs with
  | none => (fs, 1)
  | some response =>
    if response = "" then (fs, 1)
    else if pyStartsWith "create_folder:" response then
      let folder_name := ((pySplitOnce response).getD 1 "").pyStrip
      let res := create_new_folder w folder_name fs
      if res.1 then
        match send_to_openrouter (some key) o2 res.2 with
        | none => (res.2, 2)
        | some r2 =>
          if r2 = "" then (res.2, 2)
          else if pyStartsWith "create_folder:" r2 then (res.2, 2)
          else ((process_model_response w image_name (some r2) res.2).2, 2)
      else (fs, 1)
    else ((process_model_response w image_name (some response) fs).2, 1)

/-- `main`'s loop over the discovered images, each with the outcomes of
its (at most two) classifier calls. -/
def main_loop (w : World) (key : String) :
    List (String × ApiOutcome × ApiOutcome) → Fs → Fs
  | [], fs => fs
  | (img, o1, o2) :: rest, fs =>
    main_loop w key rest (handleImage w key img o1 o2 fs).1

end SortNet

namespace SortNet

theorem toList_append (a b : String) : (a ++ b).toList = a.toList ++ b.toList := by
  cases a; cases b; rfl

theorem mk_toList (s : String) : String.mk s.toList = s := by
  cases s; rfl

theorem toList_empty : ("" : String).toList = [] := rfl

theorem ne_empty_of_toList_ne_nil {s : String} (h : s.toList ≠ []) : s ≠ "" := by
  intro he
  exact h (by rw [he]; rfl)

theorem listStarts_self_append (p t : List Char) : listStarts p (p ++ t) = true := by
  induction p with
  | nil => rfl
  | cons a as ih => simp [listStarts, ih]

theorem mem_of_listStarts {p s : List Char} {c : Char}
    (h : listStarts p s = true) (hc : c ∈ p) : c ∈ s := by
  induction p generalizing s with
  | nil => cases hc
  | cons a as ih =>
    cases s with
    | nil => simp [listStarts] at h
    | cons b bs =>
      simp only [listStarts, Bool.and_eq_true, beq_iff_eq] at h
      rcases List.mem_cons.mp hc with h1 | h1
      · exact List.mem_cons.mpr (Or.inl (by rw [h1, h.1]))
      · exact List.mem_cons.mpr (Or.inr (ih h.2 h1))

theorem listStarts_nil_false {a : Char} {as : List Char} :
    listStarts (a :: as) [] = false := rfl

theorem splitFirst_isSome_of_mem {sep : Char} {l : List Char} (h : sep ∈ l) :
    ∃ a b, splitFirst sep l = some (a, b) := by
  induction l with
  | nil => cases h
  | cons c cs ih =>
    by_cases hc : c = sep
    · exact ⟨[], cs, by simp [splitFirst, hc]⟩
    · rcases List.mem_cons.mp h with h1 | h1
      · exact absurd h1.symm hc
      · rcases ih h1 with ⟨a, b, hab⟩
        exact ⟨c :: a, b, by simp [splitFirst, hc, hab]⟩

theorem splitFirst_append {sep : Char} {l1 : List Char} (l2 : List Char)
    (h : sep ∉ l1) : splitFirst sep (l1 ++ sep :: l2) = some (l1, l2) := by
  induction l1 with
  | nil => simp [splitFirst]
  | cons c cs ih =>
    have hc : c ≠ sep := fun he => h (List.mem_cons.mpr (Or.inl he.symm))
    have hcs : sep ∉ cs := fun hm => h (List.mem_cons.mpr (Or.inr hm))
    simp [splitFirst, hc, ih hcs]

theorem hasColon_of_startsWith_create {r : String}
    (h : pyStartsWith "create_folder:" r = true) : hasColon r = true := by
  have hc : ':' ∈ ("create_folder:").toList := by decide
  have : ':' ∈ r.toList := mem_of_listStarts h hc
  simpa [hasColon] using this

theorem ne_empty_of_startsWith_create {r : String}
    (h : pyStartsWith "create_folder:" r = true) : r ≠ "" := by
  apply ne_empty_of_toList_ne_nil
  intro hn
  rw [pyStartsWith, hn] at h
  exact absurd h (by decide)

theorem ne_empty_of_hasColon {r : String} (h : hasColon r = true) : r ≠ "" := by
  apply ne_empty_of_toList_ne_nil
  intro hn
  rw [hasColon, hn] at h
  exact absurd h (by decide)

theorem pySplitOnce_eq_of_splitFirst {s : String} {a b : List Char}
    (h : splitFirst ':' s.toList = some (a, b)) :
    pySplitOnce s = [String.mk a, String.mk b] := by
  unfold pySplitOnce
  rw [h]

theorem pySplitOnce_of_hasColon {r : String} (h : hasColon r = true) :
    ∃ a b, splitFirst ':' r.toList = some (a, b) ∧
      pySplitOnce r = [String.mk a, String.mk b] := by
  have hm : ':' ∈ r.toList := by simpa [hasColon] using h
  rcases splitFirst_isSome_of_mem hm with ⟨a, b, hab⟩
  exact ⟨a, b, hab, pySplitOnce_eq_of_splitFirst hab⟩

theorem pySplitOnce_create_append (X : String) :
    pySplitOnce ("create_folder:" ++ X) = ["create_folder", X] := by
  have h1 : ("create_folder:" ++ X).toList
      = ("create_folder").toList ++ ':' :: X.toList := by
    rw [toList_append]; rfl
  have h2 : splitFirst ':' (("create_folder:" ++ X).toList)
      = some (("create_folder").toList, X.toList) := by
    rw [h1]; exact splitFirst_append X.toList (by decide)
  rw [pySplitOnce_eq_of_splitFirst h2, mk_toList, mk_toList]

theorem startsWith_create_append (X : String) :
    pyStartsWith "create_folder:" ("create_folder:" ++ X) = true := by
  rw [pyStartsWith, toList_append]
  exact listStarts_self_append _ _

end SortNet

namespace SortNet

theorem create_new_folder_ok {w : World} (hw : w.mkdirOk = true) (n : String)
    (fs : Fs) : create_new_folder w n fs = (true, addDir fs n) := by
  simp [create_new_folder, osMakedirs, hw]

theorem addDir_inputFiles (fs : Fs) (n : String) :
    (addDir fs n).inputFiles = fs.inputFiles := by
  unfold addDir; split <;> rfl

theorem addDir_outputFiles (fs : Fs) (n : String) :
    (addDir fs n).outputFiles = fs.outputFiles := by
  unfold addDir; split <;> rfl

theorem mem_addDir_self (fs : Fs) (n : String) : n ∈ (addDir fs n).outputDirs := by
  unfold addDir; split
  · assumption
  · exact List.mem_append.mpr (Or.inr (List.mem_singleton.mpr rfl))

theorem addDir_of_mem {fs : Fs} {n : String} (h : n ∈ fs.outputDirs) :
    addDir fs n = fs := by
  unfold addDir; rw [if_pos h]

theorem addDir_idem (fs : Fs) (n : String) : addDir (addDir fs n) n = addDir fs n :=
  addDir_of_mem (mem_addDir_self fs n)

theorem move_image_ok {w : World} (hm : w.mkdirOk = true) (hv : w.moveOk = true)
    {image_name : String} (folder_name : String) {fs : Fs}
    (hsrc : image_name ∈ fs.inputFiles) :
    (move_image_to_folder w image_name folder_name fs).1 = true ∧
    image_name ∉ (move_image_to_folder w image_name folder_name fs).2.inputFiles ∧
    (folder_name, image_name) ∈
      (move_image_to_folder w image_name folder_name fs).2.outputFiles ∧
    folder_name ∈ (move_image_to_folder w image_name folder_name fs).2.outputDirs := by
  by_cases hd : folder_name ∈ fs.outputDirs
  · simp [move_image_to_folder, shutilMove, osMakedirs, hv, hm, hsrc, hd,
      List.mem_filter]
  · simp [move_image_to_folder, shutilMove, osMakedirs, hv, hm, hsrc, hd,
      List.mem_filter, addDir_inputFiles, addDir_outputFiles, mem_addDir_self]

theorem process_create_branch {w : World} (hw : w.mkdirOk = true)
    (img X : String) (fs : Fs) :
    process_model_response w img (some ("create_folder:" ++ X)) fs
      = (true, addDir fs X.pyStrip) := by
  have hne : ("create_folder:" ++ X) ≠ "" :=
    ne_empty_of_startsWith_create (startsWith_create_append X)
  simp [process_model_response, hne, startsWith_create_append X,
    pySplitOnce_create_append, create_new_folder_ok hw]

theorem process_colon_branch {w : World} {img r : String} {fs : Fs}
    (hc : hasColon r = true) (hs : pyStartsWith "create_folder:" r = false) :
    process_model_response w img (some r) fs
      = move_image_to_folder w img (((pySplitOnce r).getD 1 "").pyStrip) fs := by
  have hne : r ≠ "" := ne_empty_of_hasColon hc
  rcases pySplitOnce_of_hasColon hc with ⟨a, b, hab, hsplit⟩
  simp only [process_model_response, if_neg hne, hs, Bool.false_eq_true,
    if_false, hc, if_true]
  split
  · rfl
  · simp [hsplit]

theorem not_startsWith_create_of_no_colon {r : String} (hc : hasColon r = false) :
    pyStartsWith "create_folder:" r = false := by
  cases h : pyStartsWith "create_folder:" r
  · rfl
  · rw [hasColon_of_startsWith_create h] at hc
    exact absurd hc (by decide)

theorem process_nocolon_branch {w : World} {img r : String} {fs : Fs}
    (hc : hasColon r = false) (hne : r ≠ "") :
    process_model_response w img (some r) fs
      = move_image_to_folder w img r.pyStrip fs := by
  have hs := not_startsWith_create_of_no_colon hc
  simp [process_model_response, hne, hs, hc]

end SortNet

namespace SortNet

theorem move_image_all_fail (i f : String) (fs : Fs) :
    move_image_to_folder ⟨false, false⟩ i f fs = (false, fs) := by
  unfold move_image_to_folder shutilMove osMakedirs
  split <;> simp

theorem create_new_folder_all_fail (n : String) (fs : Fs) :
    create_new_folder ⟨false, false⟩ n fs = (false, fs) := by
  simp [create_new_folder, osMakedirs]

/-- C6: moving a nonexistent source file returns failure without raising and
leaves the output tree unchanged; in particular the destination folder is
not created in that case. -/
theorem C6_missing_source_move_fails (w : World) (image_name folder_name : String)
    (fs : Fs) (h : image_name ∉ fs.inputFiles) :
    move_image_to_folder w image_name folder_name fs = (false, fs) ∧
    (move_image_to_folder w image_name folder_name fs).2.outputDirs = fs.outputDirs ∧
    (move_image_to_folder w image_name folder_name fs).2.outputFiles = fs.outputFiles := by
  have he : move_image_to_folder w image_name folder_name fs = (false, fs) := by
    unfold move_image_to_folder
    rw [if_neg h]
  exact ⟨he, by rw [he], by rw [he]⟩

theorem C6_missing_source_move_fails_instance :
    move_image_to_folder ⟨true, true⟩ "gone.png" "cats" ⟨["a.png"], [], []⟩
      = (false, ⟨["a.png"], [], []⟩) ∧
    (move_image_to_folder ⟨true, true⟩ "gone.png" "cats" ⟨["a.png"], [], []⟩).2.outputDirs
      = ([] : List String) ∧
    (move_image_to_folder ⟨true, true⟩ "gone.png" "cats" ⟨["a.png"], [], []⟩).2.outputFiles
      = ([] : List (String × String)) :=
  C6_missing_source_move_fails ⟨true, true⟩ "gone.png" "cats" ⟨["a.png"], [], []⟩
    (by decide)

/-- C10: the Response Resolver is total — for every reply value, including
`None` and the empty string, it returns a boolean outcome; a falsy reply
yields `False` with no filesystem effect, and when the OS primitives for
folder creation and moving raise, the exception is caught inside the
helpers and surfaced only as a `False` return. -/
theorem C10_resolver_total_safe :
    (∀ (w : World) (img : String) (fs : Fs),
      process_model_response w img none fs = (false, fs) ∧
      process_model_response w img (some "") fs = (false, fs)) ∧
    (∀ (img : String) (resp : Option String) (fs : Fs),
      process_model_response ⟨false, false⟩ img resp fs = (false, fs)) := by
  constructor
  · intro w img fs
    exact ⟨rfl, by simp [process_model_response]⟩
  · intro img resp fs
    cases resp with
    | none => rfl
    | some r =>
      by_cases hne : r = ""
      · simp [process_model_response, hne]
      · simp [process_model_response, hne, move_image_all_fail,
          create_new_folder_all_fail]

end SortNet

namespace SortNet

/-- C3: for every reply `create_folder:X` with `X` non-empty after trimming,
the resolver's creation path takes everything after the first colon, trims
it, and creates a folder of that name under the output root; creating an
existing folder is a success, and repeating the identical call leaves the
output tree unchanged (idempotence). -/
theorem C3_create_folder_idempotent (w : World) (img X : String) (fs : Fs)
    (hw : w.mkdirOk = true) (hX : X.pyStrip ≠ "") :
    process_model_response w img (some ("create_folder:" ++ X)) fs
      = (true, addDir fs X.pyStrip) ∧
    X.pyStrip ∈ (addDir fs X.pyStrip).outputDirs ∧
    process_model_response w img (some ("create_folder:" ++ X)) (addDir fs X.pyStrip)
      = (true, addDir fs X.pyStrip) := by
  refine ⟨process_create_branch hw img X fs, mem_addDir_self fs X.pyStrip, ?_⟩
  rw [process_create_branch hw img X (addDir fs X.pyStrip), addDir_idem]

theorem C3_create_folder_idempotent_instance :
    process_model_response ⟨true, true⟩ "a.png" (some "create_folder:birds")
        ⟨["a.png"], [], []⟩
      = (true, ⟨["a.png"], ["birds"], []⟩) ∧
    "birds" ∈ (Fs.mk ["a.png"] ["birds"] []).outputDirs ∧
    process_model_response ⟨true, true⟩ "a.png" (some "create_folder:birds")
        ⟨["a.png"], ["birds"], []⟩
      = (true, ⟨["a.png"], ["birds"], []⟩) :=
  C3_create_folder_idempotent ⟨true, true⟩ "a.png" "birds" ⟨["a.png"], [], []⟩
    rfl (by decide)

/-- C4: for every reply whose left part (trimmed, split on the first colon
only) exactly equals the image name, the resolver moves the image to the
right part (trimmed) under the output root, and the image no longer exists
in the input folder afterwards. -/
theorem C4_matching_move (w : World) (img r : String) (fs : Fs)
    (hm : w.mkdirOk = true) (hv : w.moveOk = true)
    (hc : hasColon r = true) (hs : pyStartsWith "create_folder:" r = false)
    (hmatch : ((pySplitOnce r).getD 0 "").pyStrip = img)
    (hsrc : img ∈ fs.inputFiles) :
    (process_model_response w img (some r) fs).1 = true ∧
    img ∉ (process_model_response w img (some r) fs).2.inputFiles ∧
    (((pySplitOnce r).getD 1 "").pyStrip, img)
      ∈ (process_model_response w img (some r) fs).2.outputFiles := by
  rw [process_colon_branch hc hs]
  have h := move_image_ok hm hv (((pySplitOnce r).getD 1 "").pyStrip) hsrc
  exact ⟨h.1, h.2.1, h.2.2.1⟩

theorem C4_matching_move_instance :
    (process_model_response ⟨true, true⟩ "image.png" (some "image.png:cats")
        ⟨["image.png"], [], []⟩).1 = true ∧
    "image.png" ∉ (process_model_response ⟨true, true⟩ "image.png"
        (some "image.png:cats") ⟨["image.png"], [], []⟩).2.inputFiles ∧
    ("cats", "image.png") ∈ (process_model_response ⟨true, true⟩ "image.png"
        (some "image.png:cats") ⟨["image.png"], [], []⟩).2.outputFiles :=
  C4_matching_move ⟨true, true⟩ "image.png" "image.png:cats"
    ⟨["image.png"], [], []⟩ rfl rfl rfl rfl (by decide) (by decide)

/-- C2: for every reply containing a colon and not starting with
`create_folder:`, whose left part (trimmed) does not equal the image name,
the resolver still moves the image, using the right part (trimmed) as the
destination folder and the original image name as the move target. -/
theorem C2_fallback_move (w : World) (img r : String) (fs : Fs)
    (hm : w.mkdirOk = true) (hv : w.moveOk = true)
    (hc : hasColon r = true) (hs : pyStartsWith "create_folder:" r = false)
    (hdiff : ((pySplitOnce r).getD 0 "").pyStrip ≠ img)
    (hsrc : img ∈ fs.inputFiles) :
    (process_model_response w img (some r) fs).1 = true ∧
    img ∉ (process_model_response w img (some r) fs).2.inputFiles ∧
    (((pySplitOnce r).getD 1 "").pyStrip, img)
      ∈ (process_model_response w img (some r) fs).2.outputFiles := by
  rw [process_colon_branch hc hs]
  have h := move_image_ok hm hv (((pySplitOnce r).getD 1 "").pyStrip) hsrc
  exact ⟨h.1, h.2.1, h.2.2.1⟩

theorem C2_fallback_move_instance :
    (process_model_response ⟨true, true⟩ "image.png" (some "othername:cats")
        ⟨["image.png"], [], []⟩).1 = true ∧
    "image.png" ∉ (process_model_response ⟨true, true⟩ "image.png"
        (some "othername:cats") ⟨["image.png"], [], []⟩).2.inputFiles ∧
    ("cats", "image.png") ∈ (process_model_response ⟨true, true⟩ "image.png"
        (some "othername:cats") ⟨["image.png"], [], []⟩).2.outputFiles :=
  C2_fallback_move ⟨true, true⟩ "image.png" "othername:cats"
    ⟨["image.png"], [], []⟩ rfl rfl rfl rfl (by decide) (by decide)

/-- C5: for every non-empty reply containing no colon, the resolver treats
the entire trimmed reply as the destination folder name and moves the image
into that folder under the output root. -/
theorem C5_bare_folder_move (w : World) (img r : String) (fs : Fs)
    (hm : w.mkdirOk = true) (hv : w.moveOk = true)
    (hc : hasColon r = false) (hne : r ≠ "")
    (hsrc : img ∈ fs.inputFiles) :
    (process_model_response w img (some r) fs).1 = true ∧
    img ∉ (process_model_response w img (some r) fs).2.inputFiles ∧
    (r.pyStrip, img) ∈ (process_model_response w img (some r) fs).2.outputFiles := by
  rw [process_nocolon_branch hc hne]
  have h := move_image_ok hm hv r.pyStrip hsrc
  exact ⟨h.1, h.2.1, h.2.2.1⟩

theorem C5_bare_folder_move_instance :
    (process_model_response ⟨true, true⟩ "pic.jpg" (some "dogs")
        ⟨["pic.jpg"], [], []⟩).1 = true ∧
    "pic.jpg" ∉ (process_model_response ⟨true, true⟩ "pic.jpg" (some "dogs")
        ⟨["pic.jpg"], [], []⟩).2.inputFiles ∧
    ("dogs", "pic.jpg") ∈ (process_model_response ⟨true, true⟩ "pic.jpg"
        (some "dogs") ⟨["pic.jpg"], [], []⟩).2.outputFiles :=
  C5_bare_folder_move ⟨true, true⟩ "pic.jpg" "dogs" ⟨["pic.jpg"], [], []⟩
    rfl rfl rfl (by decide) (by decide)

end SortNet

namespace SortNet

/-- C1: when the first classifier reply for an image is a `create_folder:`
command, the orchestrator creates the requested folder and re-invokes the
classifier exactly once (two calls in total for that image); if the second
reply is itself a `create_folder:` command, the resulting state is exactly
the state after the first creation — the image is left in the input folder
and the second creation request is not executed, bounding folder-creation
chaining to depth 1 per image. -/
theorem C1_two_step_depth_bound (w : World) (key img c1 c2 : String) (fs : Fs)
    (hw : w.mkdirOk = true)
    (h1 : pyStartsWith "create_folder:" c1.pyStrip = true)
    (h2 : pyStartsWith "create_folder:" c2.pyStrip = true) :
    handleImage w key img (.success c1) (.success c2) fs
      = (addDir fs (((pySplitOnce c1.pyStrip).getD 1 "").pyStrip), 2) ∧
    (handleImage w key img (.success c1) (.success c2) fs).1.inputFiles
      = fs.inputFiles := by
  have hne1 : c1.pyStrip ≠ "" := ne_empty_of_startsWith_create h1
  have hne2 : c2.pyStrip ≠ "" := ne_empty_of_startsWith_create h2
  have hmain : handleImage w key img (.success c1) (.success c2) fs
      = (addDir fs (((pySplitOnce c1.pyStrip).getD 1 "").pyStrip), 2) := by
    simp [handleImage, send_to_openrouter, hne1, h1, hne2, h2,
      create_new_folder_ok hw]
  refine ⟨hmain, ?_⟩
  rw [hmain]
  exact addDir_inputFiles fs _

theorem C1_two_step_depth_bound_instance :
    handleImage ⟨true, true⟩ "k" "a.png" (.success "create_folder:birds")
        (.success "create_folder:reptiles") ⟨["a.png"], [], []⟩
      = (⟨["a.png"], ["birds"], []⟩, 2) ∧
    (handleImage ⟨true, true⟩ "k" "a.png" (.success "create_folder:birds")
        (.success "create_folder:reptiles") ⟨["a.png"], [], []⟩).1.inputFiles
      = ["a.png"] :=
  C1_two_step_depth_bound ⟨true, true⟩ "k" "a.png" "create_folder:birds"
    "create_folder:reptiles" ⟨["a.png"], [], []⟩ rfl (by decide) (by decide)

/-- C9: if the first reply for an image is `create_folder:X` and the folder
is created, but the second reply is missing or is again a `create_folder:`
command, the newly created folder remains under the output root while the
image stays in the input folder — the creation side effect of the rejected
two-step path is never rolled back. -/
theorem C9_created_folder_persists (w : World) (key img c1 : String)
    (o2 : ApiOutcome) (fs : Fs)
    (hw : w.mkdirOk = true)
    (h1 : pyStartsWith "create_folder:" c1.pyStrip = true)
    (h2 : ∀ (fs2 : Fs) (r2 : String),
      send_to_openrouter (some key) o2 fs2 = some r2 →
      r2 = "" ∨ pyStartsWith "create_folder:" r2 = true) :
    ((pySplitOnce c1.pyStrip).getD 1 "").pyStrip
      ∈ (handleImage w key img (.success c1) o2 fs).1.outputDirs ∧
    (handleImage w key img (.success c1) o2 fs).1.inputFiles
      = fs.inputFiles := by
  have hne1 : c1.pyStrip ≠ "" := ne_empty_of_startsWith_create h1
  have hmain : handleImage w key img (.success c1) o2 fs
      = (addDir fs (((pySplitOnce c1.pyStrip).getD 1 "").pyStrip), 2) := by
    cases o2 with
    | transportError =>
      simp [handleImage, send_to_openrouter, hne1, h1, create_new_folder_ok hw]
    | httpErrorStatus =>
      simp [handleImage, send_to_openrouter, hne1, h1, create_new_folder_ok hw]
    | malformedBody =>
      simp [handleImage, send_to_openrouter, hne1, h1, create_new_folder_ok hw]
    | success c =>
      rcases h2 (addDir fs (((pySplitOnce c1.pyStrip).getD 1 "").pyStrip))
          c.pyStrip rfl with hr | hr
      · simp [handleImage, send_to_openrouter, hne1, h1,
          create_new_folder_ok hw, hr]
      · simp [handleImage, send_to_openrouter, hne1, h1,
          create_new_folder_ok hw, hr]
  rw [hmain]
  exact ⟨mem_addDir_self fs _, addDir_inputFiles fs _⟩

theorem C9_created_folder_persists_instance :
    "birds" ∈ (handleImage ⟨true, true⟩ "k" "a.png"
        (.success "create_folder:birds") (.success "create_folder:reptiles")
        ⟨["a.png"], [], []⟩).1.outputDirs ∧
    (handleImage ⟨true, true⟩ "k" "a.png" (.success "create_folder:birds")
        (.success "create_folder:reptiles") ⟨["a.png"], [], []⟩).1.inputFiles
      = ["a.png"] :=
  C9_created_folder_persists ⟨true, true⟩ "k" "a.png" "create_folder:birds"
    (.success "create_folder:reptiles") ⟨["a.png"], [], []⟩ rfl (by decide)
    (by
      intro fs2 r2 h
      have h3 := Option.some.inj h
      subst h3
      exact Or.inr (by decide))

/-- C7: the Classifier Client returns the failure signal `none` on a
transport error, a bad HTTP status, or a malformed response body, rather
than raising; on success it returns the trimmed text of the first
completion choice; and a per-image classification failure only skips that
image — the batch loop continues with the remaining images unchanged. -/
theorem C7_classifier_failure_signal :
    (∀ (key : String) (fs : Fs),
      send_to_openrouter (some key) .transportError fs = none ∧
      send_to_openrouter (some key) .httpErrorStatus fs = none ∧
      send_to_openrouter (some key) .malformedBody fs = none) ∧
    (∀ (key c : String) (fs : Fs),
      send_to_openrouter (some key) (.success c) fs = some c.pyStrip) ∧
    (∀ (w : World) (key img : String) (o2 : ApiOutcome)
        (rest : List (String × ApiOutcome × ApiOutcome)) (fs : Fs),
      main_loop w key ((img, .transportError, o2) :: rest) fs
        = main_loop w key rest fs) :=
  ⟨fun _ _ => ⟨rfl, rfl, rfl⟩, fun _ _ _ => rfl, fun _ _ _ _ _ _ => rfl⟩

end SortNet

namespace SortNet

/-- C8 counterexample: when the output root has no subdirectories, the
folder list embedded in the prompt is the default `"cats\ndogs"`, which is
not the (empty) set of subdirectories — so the embedded list does not
always equal the subdirectory set at prompt-build time. -/
theorem C8_default_list_cex :
    get_available_folders ⟨["a.png"], [], []⟩ = [] ∧
    folder_list ⟨["a.png"], [], []⟩ = "cats\ndogs" ∧
    folder_list ⟨["a.png"], [], []⟩
      ≠ String.intercalate "\n" (get_available_folders ⟨["a.png"], [], []⟩) := by
  refine ⟨rfl, rfl, ?_⟩
  decide

/-- C8 (amended): whenever the output root has at least one subdirectory,
the folder list embedded in the prompt is exactly the newline-joined list
of subdirectories at prompt-build time; in particular after any folder
creation in the same run the created folder is a subdirectory and the
prompt's list is the exact subdirectory list, so the new folder appears in
subsequent prompts. -/
theorem C8_prompt_folder_list (w : World) (fs fs2 : Fs) (n : String)
    (hw : w.mkdirOk = true) (h2 : get_available_folders fs2 ≠ []) :
    folder_list fs2 = String.intercalate "\n" (get_available_folders fs2) ∧
    n ∈ get_available_folders (create_new_folder w n fs).2 ∧
    folder_list (create_new_folder w n fs).2
      = String.intercalate "\n"
          (get_available_folders (create_new_folder w n fs).2) := by
  have hmem : n ∈ get_available_folders (create_new_folder w n fs).2 := by
    rw [create_new_folder_ok hw]
    exact mem_addDir_self fs n
  have hne : get_available_folders (create_new_folder w n fs).2 ≠ [] := by
    intro h
    rw [h] at hmem
    exact absurd hmem (List.not_mem_nil n)
  exact ⟨by simp [folder_list, h2], hmem, by simp [folder_list, hne]⟩

theorem C8_prompt_folder_list_instance :
    folder_list ⟨[], ["birds"], []⟩
      = String.intercalate "\n" (get_available_folders ⟨[], ["birds"], []⟩) ∧
    "cats" ∈ get_available_folders
        (create_new_folder ⟨true, true⟩ "cats" ⟨[], [], []⟩).2 ∧
    folder_list (create_new_folder ⟨true, true⟩ "cats" ⟨[], [], []⟩).2
      = String.intercalate "\n" (get_available_folders
          (create_new_folder ⟨true, true⟩ "cats" ⟨[], [], []⟩).2) :=
  C8_prompt_folder_list ⟨true, true⟩ ⟨[], [], []⟩ ⟨[], ["birds"], []⟩ "cats"
    rfl (by decide)

end SortNet
